import Mathlib

/-!
Verification of the Cash-Pedal total-cost-of-ownership calculator.

This file is a shallow embedding, over exact rational arithmetic, of the
cost-projection core of the repository:

* `MaintenanceCalculator` (models/maintenance/maintenance_utils.py),
* `EnhancedDepreciationModel` (models/depreciation/enhanced_depreciation.py),
* `PredictionService` (prediction_service.py), and
* `get_regional_cost_multiplier` (utils/zip_code_utils.py).

Python strings are modelled as lists of characters, Python floats as `ℚ`
(every constant in the source is decimal, so the embedding is exact), Python
dicts with a fixed key set as structures, and `dict.get(k, d)` as
`Option.getD`.  Code that can raise at runtime (a division by zero, a missing
required key) is modelled with `Option`: `none` is the computation ending in
an uncaught exception.  The insurance, fuel, electric-vehicle and financing
engines as well as the vehicle-characteristics database are not part of the
repository core (the spec treats them as external collaborators specified at
their interfaces); they enter the embedding as opaque function parameters
bundled in an `Engines` structure, so every theorem below holds for every
possible behaviour of those collaborators.
-/

/-- Python strings, modelled as lists of characters. -/
abbrev Str := List Char

/-- Embed a Lean string literal into the model's string type. -/
def str (s : String) : Str := s.toList

/-- ASCII lower-casing of one character (what Python's `str.lower` does on
the ASCII range, the only range the source's tables use). -/
def lowerChar (c : Char) : Char :=
  if 'A' ≤ c ∧ c ≤ 'Z' then Char.ofNat (c.toNat + 32) else c

/-- ASCII upper-casing of one character. -/
def upperChar (c : Char) : Char :=
  if 'a' ≤ c ∧ c ≤ 'z' then Char.ofNat (c.toNat - 32) else c

/-- ASCII alphabetic test. -/
def isAsciiAlpha (c : Char) : Bool :=
  decide ('a' ≤ c ∧ c ≤ 'z') || decide ('A' ≤ c ∧ c ≤ 'Z')

/-- Python `str.lower`. -/
def lowerStr (s : Str) : Str := s.map lowerChar

/-- Whether the first list is a prefix of the second. -/
def prefixOfStr : Str → Str → Bool
  | [], _ => true
  | _ :: _, [] => false
  | a :: as, b :: bs => a == b && prefixOfStr as bs

/-- Python substring containment `needle in hay`. -/
def containsStr (hay needle : Str) : Bool :=
  match hay with
  | [] => prefixOfStr needle []
  | _ :: t => prefixOfStr needle hay || containsStr t needle

/-- Python `dict.get(key, default)` over an association list (the embedding
of the source's literal dict tables, in their insertion order). -/
def lookupD {α : Type} [DecidableEq α] {β : Type} : List (α × β) → α → β → β
  | [], _, d => d
  | (k', v) :: t, k, d => if k = k' then v else lookupD t k d

/-- Helper for Python `str.title`: the Boolean records whether the previous
character was alphabetic. -/
def titleAux : Bool → Str → Str
  | _, [] => []
  | prevAlpha, c :: t =>
      if isAsciiAlpha c then
        (if prevAlpha then lowerChar c else upperChar c) :: titleAux true t
      else
        c :: titleAux false t

/-- Python `str.title`: the first letter of each alphabetic run is
upper-cased and the rest lower-cased. -/
def titleStr (s : Str) : Str := titleAux false s

/-- `service_type.replace('_', ' ').title()` from
`MaintenanceCalculator.get_maintenance_schedule`. -/
def displayName (s : Str) : Str :=
  titleStr (s.map (fun c => if c = '_' then ' ' else c))

namespace MaintenanceCalculator

/-- `self.service_costs`: base maintenance costs by service type, dollars. -/
def service_costs : List (Str × ℚ) :=
  [(str "oil_change", 65), (str "tire_rotation", 25), (str "air_filter", 35),
   (str "cabin_filter", 45), (str "brake_inspection", 50), (str "brake_pads", 350),
   (str "brake_rotors", 450), (str "transmission_service", 200),
   (str "coolant_flush", 150), (str "spark_plugs", 180), (str "timing_belt", 800),
   (str "major_service", 400), (str "differential_service", 120),
   (str "fuel_filter", 85), (str "battery_replacement", 180), (str "alternator", 650),
   (str "starter", 550), (str "water_pump", 750)]

/-- `self.service_intervals`: service intervals by mileage. -/
def service_intervals : List (Str × ℕ) :=
  [(str "oil_change", 7500), (str "tire_rotation", 7500), (str "air_filter", 15000),
   (str "cabin_filter", 15000), (str "brake_inspection", 15000),
   (str "transmission_service", 60000), (str "coolant_flush", 60000),
   (str "spark_plugs", 45000), (str "major_service", 30000),
   (str "differential_service", 45000), (str "fuel_filter", 30000)]

/-- `self.brand_multipliers`: brand reliability multipliers. -/
def brand_multipliers : List (Str × ℚ) :=
  [(str "Toyota", 0.85), (str "Honda", 0.87), (str "Mazda", 0.90),
   (str "Hyundai", 0.92), (str "Kia", 0.92), (str "Nissan", 0.95),
   (str "Subaru", 0.98), (str "Chevrolet", 1.05), (str "Ford", 1.08),
   (str "Ram", 1.12), (str "BMW", 1.35), (str "Mercedes-Benz", 1.40),
   (str "Audi", 1.32), (str "Volkswagen", 1.15), (str "Volvo", 1.25)]

/-- One entry of a year's `services` list in `get_maintenance_schedule`. -/
structure ServiceItem where
  service : Str
  frequency : ℕ
  cost_per_service : ℚ
  total_cost : ℚ
  due_at_mileage : ℕ
  deriving DecidableEq

/-- One year's dict in the list returned by `get_maintenance_schedule`. -/
structure MaintYear where
  year : ℕ
  total_mileage : ℕ
  starting_year_mileage : ℕ
  ending_year_mileage : ℕ
  services : List ServiceItem
  total_year_cost : ℚ
  deriving DecidableEq

/-- The inner `for service_type, interval in self.service_intervals.items()`
loop of `get_maintenance_schedule`, for one year, generalised over the
interval table it walks. -/
def yearServicesOver (table : List (Str × ℕ)) (annual_mileage starting_mileage year : ℕ) :
    List ServiceItem :=
  table.filterMap (fun si =>
    let interval := si.2
    let previous_total_mileage := starting_mileage + annual_mileage * (year - 1)
    let total_mileage := starting_mileage + annual_mileage * year
    let services_due_by_end_of_year := total_mileage / interval
    let services_due_by_end_of_previous_year := previous_total_mileage / interval
    let services_this_year :=
      services_due_by_end_of_year - services_due_by_end_of_previous_year
    if services_this_year > 0 then
      some { service := displayName si.1,
             frequency := services_this_year,
             cost_per_service := lookupD service_costs si.1 0,
             total_cost := lookupD service_costs si.1 0 * services_this_year,
             due_at_mileage := (services_due_by_end_of_previous_year + 1) * interval }
    else none)

/-- The services due in one given year. -/
def yearServices (annual_mileage starting_mileage year : ℕ) : List ServiceItem :=
  yearServicesOver service_intervals annual_mileage starting_mileage year

/-- `get_maintenance_schedule(annual_mileage, years, starting_mileage)`. -/
def get_maintenance_schedule (annual_mileage years starting_mileage : ℕ) :
    List MaintYear :=
  (List.range years).map (fun i =>
    let year := i + 1
    let total_mileage := starting_mileage + annual_mileage * year
    let svs := yearServices annual_mileage starting_mileage year
    { year := year,
      total_mileage := total_mileage,
      starting_year_mileage := starting_mileage + annual_mileage * (year - 1),
      ending_year_mileage := total_mileage,
      services := svs,
      total_year_cost := (svs.map (·.total_cost)).sum })

/-- The total number of occurrences of the service with the given (displayed)
name recorded in a services list. -/
def servicesCount (l : List ServiceItem) (sname : Str) : ℕ :=
  ((l.filter (fun s => s.service = sname)).map (·.frequency)).sum

/-- The total number of occurrences of the service with the given (displayed)
name recorded in one year's services list. -/
def yearServiceCount (row : MaintYear) (sname : Str) : ℕ :=
  servicesCount row.services sname

end MaintenanceCalculator

namespace EnhancedDepreciationModel

/-- `self.brand_multipliers`: brand depreciation multipliers. -/
def brand_multipliers : List (Str × ℚ) :=
  [(str "Toyota", 0.78), (str "Honda", 0.80), (str "Lexus", 0.75),
   (str "Porsche", 0.82), (str "Subaru", 0.88), (str "Mazda", 0.90),
   (str "Hyundai", 0.92), (str "Kia", 0.94), (str "Acura", 0.85),
   (str "Ford", 1.00), (str "Chevrolet", 1.02), (str "GMC", 1.00),
   (str "Buick", 0.98), (str "Nissan", 1.03), (str "Infiniti", 1.08),
   (str "Volvo", 1.05), (str "Volkswagen", 1.12), (str "Mini", 1.15),
   (str "Jaguar", 1.18), (str "Land Rover", 1.20), (str "BMW", 1.22),
   (str "Mercedes-Benz", 1.25), (str "Audi", 1.18), (str "Cadillac", 1.20),
   (str "Lincoln", 1.25), (str "Genesis", 1.15), (str "Chrysler", 1.30),
   (str "Dodge", 1.28), (str "Jeep", 1.10), (str "Ram", 1.05),
   (str "Fiat", 1.35), (str "Alfa Romeo", 1.32), (str "Tesla", 1.15),
   (str "Rivian", 1.25), (str "Lucid", 1.30)]

/-- `self.segment_curves`: segment-specific cumulative depreciation curves,
year 1..15 → cumulative fraction of value lost. -/
def segment_curves : List (Str × List (ℕ × ℚ)) :=
  [(str "luxury",
    [(1, 0.25), (2, 0.42), (3, 0.55), (4, 0.65), (5, 0.72), (6, 0.77), (7, 0.81),
     (8, 0.84), (9, 0.86), (10, 0.88), (11, 0.89), (12, 0.90), (13, 0.91),
     (14, 0.92), (15, 0.93)]),
   (str "electric",
    [(1, 0.30), (2, 0.50), (3, 0.65), (4, 0.75), (5, 0.82), (6, 0.86), (7, 0.89),
     (8, 0.91), (9, 0.92), (10, 0.93), (11, 0.94), (12, 0.95), (13, 0.95),
     (14, 0.95), (15, 0.95)]),
   (str "truck",
    [(1, 0.15), (2, 0.28), (3, 0.38), (4, 0.46), (5, 0.53), (6, 0.59), (7, 0.64),
     (8, 0.68), (9, 0.71), (10, 0.74), (11, 0.76), (12, 0.78), (13, 0.80),
     (14, 0.82), (15, 0.84)]),
   (str "sports",
    [(1, 0.22), (2, 0.38), (3, 0.50), (4, 0.60), (5, 0.68), (6, 0.74), (7, 0.78),
     (8, 0.81), (9, 0.83), (10, 0.85), (11, 0.86), (12, 0.87), (13, 0.88),
     (14, 0.89), (15, 0.90)]),
   (str "suv",
    [(1, 0.18), (2, 0.32), (3, 0.43), (4, 0.52), (5, 0.60), (6, 0.66), (7, 0.71),
     (8, 0.75), (9, 0.78), (10, 0.80), (11, 0.82), (12, 0.83), (13, 0.84),
     (14, 0.85), (15, 0.86)]),
   (str "compact",
    [(1, 0.20), (2, 0.35), (3, 0.47), (4, 0.56), (5, 0.64), (6, 0.70), (7, 0.75),
     (8, 0.79), (9, 0.82), (10, 0.84), (11, 0.86), (12, 0.87), (13, 0.88),
     (14, 0.89), (15, 0.90)]),
   (str "sedan",
    [(1, 0.21), (2, 0.36), (3, 0.48), (4, 0.58), (5, 0.66), (6, 0.72), (7, 0.77),
     (8, 0.81), (9, 0.84), (10, 0.86), (11, 0.88), (12, 0.89), (13, 0.90),
     (14, 0.91), (15, 0.92)]),
   (str "economy",
    [(1, 0.24), (2, 0.40), (3, 0.52), (4, 0.62), (5, 0.70), (6, 0.76), (7, 0.81),
     (8, 0.84), (9, 0.87), (10, 0.89), (11, 0.90), (12, 0.91), (13, 0.92),
     (14, 0.93), (15, 0.94)])]

/-- `self.standard_curve`: conservative curve for unclassified vehicles. -/
def standard_curve : List (ℕ × ℚ) :=
  [(1, 0.20), (2, 0.34), (3, 0.45), (4, 0.54), (5, 0.62), (6, 0.68), (7, 0.73),
   (8, 0.77), (9, 0.80), (10, 0.82), (11, 0.84), (12, 0.85), (13, 0.86),
   (14, 0.87), (15, 0.88)]

/-- `self.high_retention_models`: high-demand nameplates per brand. -/
def high_retention_models : List (Str × List Str) :=
  [(str "Toyota", [str "Prius", str "Camry", str "Corolla", str "RAV4",
      str "Highlander", str "Sienna", str "Tundra", str "Tacoma"]),
   (str "Honda", [str "Civic", str "Accord", str "CR-V", str "Pilot",
      str "Odyssey", str "Ridgeline"]),
   (str "Subaru", [str "Outback", str "Forester", str "Impreza", str "WRX",
      str "Crosstrek"]),
   (str "Lexus", [str "RX", str "ES", str "GX", str "LX", str "NX"]),
   (str "Jeep", [str "Wrangler"]),
   (str "Ford", [str "F-150", str "Bronco"]),
   (str "Chevrolet", [str "Corvette", str "Silverado", str "Tahoe"]),
   (str "Porsche", [str "911", str "Macan", str "Cayenne"]),
   (str "Tesla", [str "Model S", str "Model 3"])]

/-- `self.poor_retention_models`: poor-retention nameplates per brand. -/
def poor_retention_models : List (Str × List Str) :=
  [(str "BMW", [str "X6", str "7 Series", str "i3", str "i8"]),
   (str "Mercedes-Benz", [str "S-Class", str "SL-Class", str "G-Class"]),
   (str "Audi", [str "A8", str "R8", str "Q7"]),
   (str "Cadillac", [str "Escalade", str "CT6"]),
   (str "Lincoln", [str "Navigator", str "Continental"]),
   (str "Chrysler", [str "300", str "Pacifica"]),
   (str "Fiat", [str "500", str "500X"]),
   (str "Jaguar", [str "XJ", str "F-Type"]),
   (str "Land Rover", [str "Range Rover", str "Discovery"])]

/-- The `ev_terms` list of `_classify_vehicle_segment`. -/
def ev_terms : List Str :=
  [str "electric", str "ev", str "volt", str "leaf", str "prius prime",
   str "ioniq", str "model s", str "model 3", str "model x", str "model y",
   str "i3", str "i4", str "ix", str "etron", str "e-tron", str "taycan",
   str "lightning", str "bolt", str "clarity"]

/-- The `luxury_brands` list of `_classify_vehicle_segment`. -/
def luxury_brands : List Str :=
  [str "bmw", str "mercedes-benz", str "audi", str "lexus", str "acura",
   str "infiniti", str "cadillac", str "lincoln", str "genesis", str "volvo",
   str "jaguar", str "land rover", str "porsche", str "maserati",
   str "bentley", str "rolls-royce"]

/-- The `sports_terms` list of `_classify_vehicle_segment`. -/
def sports_terms : List Str :=
  [str "corvette", str "mustang", str "camaro", str "challenger",
   str "charger", str "911", str "cayman", str "boxster", str "gt",
   str "sport", str "rs", str "m3", str "m5", str "amg", str "type r",
   str "sti", str "wrx", str "z", str "supra", str "nsx"]

/-- The `truck_terms` list of `_classify_vehicle_segment`. -/
def truck_terms : List Str :=
  [str "f-150", str "f-250", str "f-350", str "silverado", str "sierra",
   str "ram 1500", str "ram 2500", str "tundra", str "tacoma",
   str "frontier", str "ridgeline", str "colorado", str "canyon",
   str "ranger", str "gladiator", str "titan"]

/-- The `suv_terms` list of `_classify_vehicle_segment`. -/
def suv_terms : List Str :=
  [str "suburban", str "tahoe", str "yukon", str "expedition",
   str "navigator", str "escalade", str "pilot", str "passport",
   str "ridgeline", str "highlander", str "rav4", str "cr-v", str "hr-v",
   str "santa fe", str "tucson", str "sorento", str "telluride",
   str "palisade", str "cx-5", str "cx-9", str "outback", str "forester",
   str "ascent", str "pathfinder", str "armada", str "durango",
   str "grand cherokee", str "cherokee", str "compass", str "renegade",
   str "wrangler"]

/-- The `compact_terms` list of `_classify_vehicle_segment`. -/
def compact_terms : List Str :=
  [str "civic", str "corolla", str "elantra", str "forte", str "sentra",
   str "versa", str "mazda3", str "impreza", str "crosstrek", str "jetta",
   str "golf"]

/-- The `economy_terms` list of `_classify_vehicle_segment`. -/
def economy_terms : List Str :=
  [str "spark", str "mirage", str "rio", str "accent", str "yaris", str "fit"]

/-- The electric-vehicle test of `_classify_vehicle_segment`. -/
def isElectricMatch (make model : Str) : Bool :=
  ev_terms.any (fun t => containsStr (lowerStr model) t) ||
    [str "tesla", str "rivian", str "lucid"].contains (lowerStr make)

/-- The luxury-brand test of `_classify_vehicle_segment`. -/
def isLuxuryMatch (make : Str) : Bool := luxury_brands.contains (lowerStr make)

/-- The sports-keyword test of `_classify_vehicle_segment`. -/
def isSportsMatch (model : Str) : Bool :=
  sports_terms.any (fun t => containsStr (lowerStr model) t)

/-- The truck-keyword test of `_classify_vehicle_segment`. -/
def isTruckMatch (model : Str) : Bool :=
  truck_terms.any (fun t => containsStr (lowerStr model) t) ||
    containsStr (lowerStr model) (str "truck")

/-- The suv-keyword test of `_classify_vehicle_segment`. -/
def isSuvMatch (model : Str) : Bool :=
  suv_terms.any (fun t => containsStr (lowerStr model) t) ||
    containsStr (lowerStr model) (str "suv")

/-- The compact-keyword test of `_classify_vehicle_segment`. -/
def isCompactMatch (model : Str) : Bool :=
  compact_terms.any (fun t => containsStr (lowerStr model) t)

/-- The economy-keyword test of `_classify_vehicle_segment`. -/
def isEconomyMatch (model : Str) : Bool :=
  economy_terms.any (fun t => containsStr (lowerStr model) t)

/-- `_classify_vehicle_segment(make, model)`: first matching rule wins,
default sedan. -/
def _classify_vehicle_segment (make model : Str) : Str :=
  if isElectricMatch make model then str "electric"
  else if isLuxuryMatch make then str "luxury"
  else if isSportsMatch model then str "sports"
  else if isTruckMatch model then str "truck"
  else if isSuvMatch model then str "suv"
  else if isCompactMatch model then str "compact"
  else if isEconomyMatch model then str "economy"
  else str "sedan"

/-- `_get_cumulative_depreciation_rate(year, segment)`.  The source indexes
`curve[year]` for `year ≤ 15` (its dicts have keys 1..15); the association
list lookup returns 0 outside those keys, a case no caller reaches since all
call sites pass `year ≥ 1`. -/
def _get_cumulative_depreciation_rate (year : ℕ) (segment : Str) : ℚ :=
  let curve := lookupD segment_curves segment standard_curve
  if year ≤ 15 then lookupD curve year 0
  else min 0.96 (lookupD curve 15 0 + ((year - 15 : ℕ) : ℚ) * 0.005)

/-- `_calculate_mileage_impact(annual_mileage)`: the piecewise mileage
multiplier curve.  Stated over `ℚ` (the source's arithmetic is real-valued;
callers pass integers). -/
def _calculate_mileage_impact (annual_mileage : ℚ) : ℚ :=
  if annual_mileage ≤ 100 then 0.60
  else if annual_mileage ≤ 1000 then
    let ratio := (annual_mileage - 100) / 900
    0.60 + ratio * 0.15
  else if annual_mileage ≤ 5000 then
    let ratio := (annual_mileage - 1000) / 4000
    0.75 + ratio * 0.10
  else
    let standard_mileage : ℚ := 12000
    if annual_mileage ≤ standard_mileage then
      let ratio := annual_mileage / standard_mileage
      0.85 + ratio * 0.15
    else if annual_mileage ≤ 20000 then
      let excess_ratio := (annual_mileage - standard_mileage) / 8000
      1.0 + excess_ratio * 0.25
    else
      min 1.5 (1.25 + (annual_mileage - 20000) / 20000 * 0.25)

/-- `_apply_model_specific_adjustments(make, model, base_multiplier)`. -/
def _apply_model_specific_adjustments (make model : Str) (base_multiplier : ℚ) : ℚ :=
  if (lookupD high_retention_models make []).any
      (fun n => containsStr (lowerStr model) (lowerStr n)) then
    base_multiplier * 0.85
  else if (lookupD poor_retention_models make []).any
      (fun n => containsStr (lowerStr model) (lowerStr n)) then
    base_multiplier * 1.15
  else base_multiplier

/-- The `max_depreciation` cap table of `calculate_depreciation_schedule`. -/
def max_depreciation : List (Str × ℚ) :=
  [(str "luxury", 0.95), (str "electric", 0.96), (str "economy", 0.94),
   (str "sedan", 0.92), (str "compact", 0.91), (str "suv", 0.88),
   (str "truck", 0.85), (str "sports", 0.90)]

/-- One row of a depreciation schedule.  The new-vehicle engine and the
used-vehicle path of the orchestrator emit dicts with different extra keys;
the shared keys are plain fields and the others optional. -/
structure DepRow where
  year : ℕ
  vehicle_value : ℚ
  annual_depreciation : ℚ
  depreciation_rate : ℚ
  cumulative_depreciation : Option ℚ
  segment : Option Str
  brand_multiplier : Option ℚ
  mileage_multiplier : Option ℚ
  ownership_year : Option ℤ
  vehicle_age : Option ℤ
  deriving DecidableEq

/-- A placeholder row for out-of-range list reads (never reached by the
guarded call sites). -/
def dummyDepRow : DepRow :=
  { year := 0, vehicle_value := 0, annual_depreciation := 0,
    depreciation_rate := 0, cumulative_depreciation := none, segment := none,
    brand_multiplier := none, mileage_multiplier := none,
    ownership_year := none, vehicle_age := none }

/-- The capped per-year cumulative rate of `calculate_depreciation_schedule`:
`min(curve[year] × brand × mileage, segment cap)`. -/
def scheduleRateAt (vehicle_make vehicle_model : Str) (annual_mileage : ℕ)
    (year : ℕ) : ℚ :=
  let segment := _classify_vehicle_segment vehicle_make vehicle_model
  let brand_multiplier := lookupD brand_multipliers vehicle_make 1.0
  let adjusted_brand_multiplier :=
    _apply_model_specific_adjustments vehicle_make vehicle_model brand_multiplier
  let mileage_multiplier := _calculate_mileage_impact (annual_mileage : ℚ)
  min (_get_cumulative_depreciation_rate year segment * adjusted_brand_multiplier *
        mileage_multiplier)
      (lookupD max_depreciation segment 0.92)

/-- The year-end vehicle value of `calculate_depreciation_schedule`:
`initial_value * (1 - adjusted_rate)`. -/
def scheduleValueAt (initial_value : ℚ) (vehicle_make vehicle_model : Str)
    (annual_mileage : ℕ) (year : ℕ) : ℚ :=
  initial_value * (1 - scheduleRateAt vehicle_make vehicle_model annual_mileage year)

/-- `calculate_depreciation_schedule(initial_value, make, model, model_year,
annual_mileage, years)`.  The source reads the previous year's value from
`schedule[-1]['vehicle_value']`; that value equals `scheduleValueAt` at
`year - 1`, which the embedding uses directly. -/
def calculate_depreciation_schedule (initial_value : ℚ)
    (vehicle_make vehicle_model : Str) (model_year : ℤ) (annual_mileage : ℕ)
    (years : ℕ) : List DepRow :=
  let segment := _classify_vehicle_segment vehicle_make vehicle_model
  let brand_multiplier := lookupD brand_multipliers vehicle_make 1.0
  let adjusted_brand_multiplier :=
    _apply_model_specific_adjustments vehicle_make vehicle_model brand_multiplier
  let mileage_multiplier := _calculate_mileage_impact (annual_mileage : ℚ)
  (List.range years).map (fun i =>
    let year := i + 1
    let new_value := scheduleValueAt initial_value vehicle_make vehicle_model annual_mileage year
    let annual_depreciation :=
      (if year = 1 then initial_value
       else scheduleValueAt initial_value vehicle_make vehicle_model annual_mileage (year - 1))
        - new_value
    { year := year,
      vehicle_value := new_value,
      annual_depreciation := annual_depreciation,
      cumulative_depreciation := some (initial_value - new_value),
      depreciation_rate := scheduleRateAt vehicle_make vehicle_model annual_mileage year,
      segment := some segment,
      brand_multiplier := some adjusted_brand_multiplier,
      mileage_multiplier := some mileage_multiplier,
      ownership_year := none,
      vehicle_age := none })

end EnhancedDepreciationModel

/-- `get_regional_cost_multiplier(geography_type, state)` from
utils/zip_code_utils.py (the orchestrator passes the scenario's zip code as
the first argument). -/
def get_regional_cost_multiplier (geography_type state : Str) : ℚ :=
  let base_multipliers : List (Str × ℚ) :=
    [(str "urban", 1.15), (str "suburban", 1.0), (str "rural", 0.85)]
  let high_cost_states : List Str :=
    [str "CA", str "NY", str "HI", str "MA", str "CT", str "NJ", str "AK"]
  let low_cost_states : List Str :=
    [str "MS", str "AL", str "AR", str "WV", str "OK", str "KS", str "ND", str "SD"]
  let multiplier := lookupD base_multipliers (lowerStr geography_type) 1.0
  if high_cost_states.contains state then multiplier * 1.1
  else if low_cost_states.contains state then multiplier * 0.9
  else multiplier

namespace PredictionService

open EnhancedDepreciationModel (DepRow dummyDepRow)

/-- Vehicle characteristics returned by the external
`get_vehicle_characteristics` lookup (data/vehicle_database.py, an external
collaborator); every key the orchestrator reads with a default. -/
structure VehicleChars where
  mpg : Option ℚ
  efficiency : Option ℚ
  mpge : Option ℚ
  is_electric : Option Bool
  reliability_score : Option ℚ
  market_segment : Option Str

/-- The keyword arguments of `AdvancedInsuranceCalculator.calculate_annual_premium`
(an external collaborator).  The lease path omits `vehicle_model`. -/
structure InsuranceQuery where
  vehicle_value : ℚ
  vehicle_make : Str
  vehicle_year : ℤ
  driver_age : ℤ
  state : Str
  coverage_type : Str
  annual_mileage : ℕ
  num_vehicles : ℤ
  regional_multiplier : ℚ
  vehicle_model : Option Str
  deriving DecidableEq

/-- The keyword arguments of `FuelCostCalculator.calculate_annual_fuel_cost`. -/
structure FuelQuery where
  annual_mileage : ℕ
  mpg : ℚ
  fuel_price : ℚ
  driving_style : Str
  terrain : Str
  deriving DecidableEq

/-- The keyword arguments of `EVCostCalculator.calculate_annual_electricity_cost`. -/
structure EVQuery where
  annual_mileage : ℕ
  vehicle_efficiency : ℚ
  electricity_rate : ℚ
  charging_preference : Str
  deriving DecidableEq

/-- The keyword arguments of `FinancialAnalysisService.calculate_loan_payments`. -/
structure LoanQuery where
  loan_amount : ℚ
  interest_rate : ℚ
  loan_term_years : ℤ
  analysis_years : ℤ
  deriving DecidableEq

/-- One year of the external financing schedule; the orchestrator reads
`'annual_payment'` with `.get(..., 0)`. -/
structure LoanYear where
  annual_payment : Option ℚ
  deriving DecidableEq

/-- The external collaborators the orchestrator calls (spec §6): the vehicle
reference lookup and the insurance, fuel, electric-vehicle and financing
engines, none of which are part of the repository's core sources. -/
structure Engines where
  getVehicleCharacteristics : Str → Str → ℤ → VehicleChars
  insurancePremium : InsuranceQuery → ℚ
  fuelCost : FuelQuery → ℚ
  evCost : EVQuery → ℚ
  loanPayments : LoanQuery → List LoanYear

/-- The `input_data` dict of `calculate_total_cost_of_ownership`.  Keys the
source reads with subscripting on every path are plain fields; keys read via
`.get` (or required only on one path) are `Option`s, `none` meaning the key
is absent. -/
structure Input where
  make : Str
  model : Str
  year : ℤ
  state : Str
  geography_type : Str
  annual_mileage : Option ℕ
  current_mileage : Option ℕ
  price : Option ℚ
  trim_msrp : Option ℚ
  analysis_years : Option ℤ
  transaction_type : Option Str
  zip_code : Option Str
  financing_type : Option Str
  loan_amount : Option ℚ
  financing_option : Option Str
  interest_rate : Option ℚ
  loan_term : Option ℤ
  driving_style : Option Str
  shop_type : Option Str
  terrain : Option Str
  driver_age : Option ℤ
  coverage_type : Option Str
  num_household_vehicles : Option ℤ
  is_electric : Option Bool
  electricity_rate : Option ℚ
  charging_preference : Option Str
  charging_pref : Option Str
  fuel_price : Option ℚ
  gross_income : Option ℚ
  down_payment : Option ℚ
  lease_monthly_payment : Option ℚ
  lease_mileage_limit : Option ℕ
  user_age : Option ℤ

/-- The `brand_multipliers` dict local to
`_calculate_realistic_used_vehicle_depreciation`. -/
def used_brand_multipliers : List (Str × ℚ) :=
  [(str "Toyota", 0.8), (str "Honda", 0.8), (str "Lexus", 0.7),
   (str "BMW", 1.2), (str "Mercedes-Benz", 1.2), (str "Audi", 1.1),
   (str "Chevrolet", 1.0), (str "Ford", 1.0), (str "Hyundai", 0.9)]

/-- The `annual_rates` bucket of
`_calculate_realistic_used_vehicle_depreciation`, by vehicle age at
purchase. -/
def usedAnnualRates (vehicle_age_at_purchase : ℤ) : List ℚ :=
  if vehicle_age_at_purchase ≤ 3 then [0.08, 0.07, 0.06, 0.05, 0.04]
  else if vehicle_age_at_purchase ≤ 7 then [0.05, 0.04, 0.04, 0.03, 0.03]
  else [0.03, 0.02, 0.02, 0.02, 0.02]

/-- The year loop of `_calculate_realistic_used_vehicle_depreciation`:
`current_value` is the running value, `year` the loop counter, `remaining`
the number of years still to produce. -/
def usedRowsAux (model_year current_year : ℤ) (initial_value : ℚ)
    (rates : List ℚ) (brand_multiplier : ℚ) :
    ℕ → ℕ → ℚ → List DepRow
  | _, 0, _ => []
  | year, r + 1, current_value =>
    let base_rate := rates.getD (min (year - 1) (rates.length - 1)) 0
    let adjusted_rate := base_rate * brand_multiplier
    let annual_depreciation0 := current_value * adjusted_rate
    let new_value0 := current_value - annual_depreciation0
    let min_value := initial_value * 0.15
    let new_value := max new_value0 min_value
    let annual_depreciation := current_value - new_value
    let ownership_year := current_year + year - 1
    { year := year, vehicle_value := new_value,
      annual_depreciation := annual_depreciation,
      depreciation_rate := adjusted_rate,
      cumulative_depreciation := none, segment := none,
      brand_multiplier := none, mileage_multiplier := none,
      ownership_year := some ownership_year,
      vehicle_age := some (ownership_year - model_year) }
      :: usedRowsAux model_year current_year initial_value rates brand_multiplier
           (year + 1) r new_value

/-- `_calculate_realistic_used_vehicle_depreciation(input_data, initial_value,
analysis_years)`.  The source reads the current calendar year from the system
clock (`datetime.now().year`); the embedding passes it explicitly as
`current_year`. -/
def _calculate_realistic_used_vehicle_depreciation (make : Str)
    (model_year current_year : ℤ) (initial_value : ℚ) (analysis_years : ℕ) :
    List DepRow :=
  let vehicle_age_at_purchase := current_year - model_year
  let annual_rates := usedAnnualRates vehicle_age_at_purchase
  let brand_multiplier := lookupD used_brand_multipliers make 1.0
  usedRowsAux model_year current_year initial_value annual_rates
    brand_multiplier 1 analysis_years initial_value

/-- One entry of an adjusted maintenance `services` list
(`_adjust_maintenance_schedule` / `_adjust_lease_maintenance_schedule`;
`warranty_covered` exists only on the lease side). -/
structure AdjustedServiceItem where
  service : Str
  frequency : ℕ
  cost_per_service : ℚ
  total_cost : ℚ
  shop_type : Str
  interval_based : Bool
  warranty_covered : Option ℚ
  deriving DecidableEq

/-- One year of an adjusted maintenance schedule.  The purchase variant keys
`starting_year_mileage`/`ending_year_mileage`, the lease variant
`warranty_discount`; keys absent on the other side are `none`. -/
structure AdjMaintYear where
  year : ℕ
  total_mileage : ℕ
  starting_year_mileage : Option ℕ
  ending_year_mileage : Option ℕ
  services : List AdjustedServiceItem
  total_year_cost : ℚ
  brand_multiplier : ℚ
  shop_multiplier : ℚ
  regional_multiplier : ℚ
  warranty_discount : Option ℚ
  deriving DecidableEq

/-- A placeholder for out-of-range reads of the adjusted schedule. -/
def dummyAdjMaintYear : AdjMaintYear :=
  { year := 0, total_mileage := 0, starting_year_mileage := none,
    ending_year_mileage := none, services := [], total_year_cost := 0,
    brand_multiplier := 0, shop_multiplier := 0, regional_multiplier := 0,
    warranty_discount := none }

/-- The `base_wear_costs` dict of `_calculate_year_specific_wear_maintenance`. -/
def base_wear_costs : List (ℕ × ℚ) :=
  [(4, 100), (5, 150), (6, 200), (7, 300), (8, 400), (9, 500), (10, 600)]

/-- The shop-type dict local to `_calculate_year_specific_wear_maintenance`. -/
def wear_shop_multipliers : List (Str × ℚ) :=
  [(str "dealership", 1.15), (str "independent", 1.0), (str "chain", 1.05),
   (str "specialty", 1.1)]

/-- `_calculate_year_specific_wear_maintenance(vehicle_age, vehicle_make,
shop_type, regional_multiplier)`. -/
def _calculate_year_specific_wear_maintenance (vehicle_age : ℕ)
    (vehicle_make shop_type : Str) (regional_multiplier : ℚ) : ℚ :=
  let base_cost := lookupD base_wear_costs (min vehicle_age 10) 600
  let brand_multiplier := lookupD MaintenanceCalculator.brand_multipliers vehicle_make 1.0
  let shop_multiplier := lookupD wear_shop_multipliers shop_type 1.0
  base_cost * brand_multiplier * shop_multiplier * regional_multiplier

/-- The shop-type dict local to `_adjust_maintenance_schedule`. -/
def adjust_shop_multipliers : List (Str × ℚ) :=
  [(str "dealership", 1.15), (str "independent", 1.0), (str "chain", 1.05),
   (str "specialty", 1.1), (str "diy", 0.5)]

/-- `_adjust_maintenance_schedule(base_schedule, vehicle_make, shop_type,
regional_multiplier)`. -/
def _adjust_maintenance_schedule
    (base_schedule : List MaintenanceCalculator.MaintYear)
    (vehicle_make shop_type : Str) (regional_multiplier0 : ℚ) :
    List AdjMaintYear :=
  let brand_multiplier := lookupD MaintenanceCalculator.brand_multipliers vehicle_make 1.0
  let shop_multiplier := lookupD adjust_shop_multipliers shop_type 1.0
  let regional_multiplier := max 0.8 (min 1.3 regional_multiplier0)
  base_schedule.map (fun year_data =>
    let adjusted_services := year_data.services.map (fun service =>
      let base_cost := service.cost_per_service
      let adjusted_cost :=
        if brand_multiplier < 0.95 then base_cost * brand_multiplier
        else if brand_multiplier > 1.25 then base_cost * min brand_multiplier 1.4
        else base_cost * brand_multiplier
      let final_cost_per_service := adjusted_cost * shop_multiplier * regional_multiplier
      { service := service.service, frequency := service.frequency,
        cost_per_service := final_cost_per_service,
        total_cost := final_cost_per_service * (service.frequency : ℚ),
        shop_type := shop_type, interval_based := true,
        warranty_covered := none : AdjustedServiceItem })
    let interval_total := (adjusted_services.map (·.total_cost)).sum
    let vehicle_age := year_data.year
    let wear : Option ℚ :=
      if vehicle_age > 3 then
        let wear_cost := _calculate_year_specific_wear_maintenance vehicle_age
          vehicle_make shop_type regional_multiplier
        if wear_cost > 100 then some wear_cost else none
      else none
    let all_services := adjusted_services ++ (match wear with
      | some w =>
        [{ service := str "Additional Wear & Tear", frequency := 1,
           cost_per_service := w, total_cost := w, shop_type := shop_type,
           interval_based := false, warranty_covered := none }]
      | none => [])
    { year := year_data.year,
      total_mileage := year_data.total_mileage,
      starting_year_mileage := some year_data.starting_year_mileage,
      ending_year_mileage := some year_data.ending_year_mileage,
      services := all_services,
      total_year_cost := interval_total + (match wear with | some w => w | none => 0),
      brand_multiplier := brand_multiplier,
      shop_multiplier := shop_multiplier,
      regional_multiplier := regional_multiplier,
      warranty_discount := none })

/-- `_adjust_lease_maintenance_schedule(base_schedule, vehicle_make,
regional_multiplier)`. -/
def _adjust_lease_maintenance_schedule
    (base_schedule : List MaintenanceCalculator.MaintYear)
    (vehicle_make : Str) (regional_multiplier : ℚ) : List AdjMaintYear :=
  let brand_multiplier := lookupD MaintenanceCalculator.brand_multipliers vehicle_make 1.0
  let shop_multiplier : ℚ := 1.2
  base_schedule.map (fun year_data =>
    let lease_year := year_data.year
    let warranty_discount : ℚ :=
      if lease_year ≤ 2 then 0.6 else if lease_year ≤ 3 then 0.4 else 0.2
    let adjusted_services := year_data.services.filterMap (fun service =>
      let full_cost := service.cost_per_service * brand_multiplier *
        shop_multiplier * regional_multiplier
      let out_of_pocket_cost := full_cost * (1 - warranty_discount)
      if out_of_pocket_cost > 5 then
        some { service := service.service, frequency := service.frequency,
               cost_per_service := out_of_pocket_cost,
               total_cost := out_of_pocket_cost * (service.frequency : ℚ),
               warranty_covered :=
                 some (full_cost * warranty_discount * (service.frequency : ℚ)),
               shop_type := str "dealership", interval_based := true :
                 AdjustedServiceItem }
      else none)
    let base_total := (adjusted_services.map (·.total_cost)).sum
    let wear : Option ℚ :=
      if lease_year > 3 then some (100 * brand_multiplier * regional_multiplier)
      else none
    let all_services := adjusted_services ++ (match wear with
      | some w =>
        [{ service := str "Minor Wear Items", frequency := 1,
           cost_per_service := w, total_cost := w, warranty_covered := some 0,
           shop_type := str "dealership", interval_based := false }]
      | none => [])
    { year := lease_year,
      total_mileage := year_data.total_mileage,
      starting_year_mileage := none,
      ending_year_mileage := none,
      services := all_services,
      total_year_cost := base_total + (match wear with | some w => w | none => 0),
      brand_multiplier := brand_multiplier,
      shop_multiplier := shop_multiplier,
      regional_multiplier := regional_multiplier,
      warranty_discount := some warranty_discount })

/-- `_calculate_lease_fees_and_penalties(actual_mileage, allowed_mileage,
lease_year, vehicle_value)`. -/
def _calculate_lease_fees_and_penalties (actual_mileage allowed_mileage : ℕ)
    (lease_year : ℕ) (vehicle_value : ℚ) : ℚ :=
  let fees : ℚ := 0
  let fees :=
    if actual_mileage > allowed_mileage then
      fees + ((actual_mileage - allowed_mileage : ℕ) : ℚ) * 0.20
    else fees
  fees + vehicle_value * 0.001

/-- The affordability dict of `_calculate_affordability`. -/
structure Affordability where
  annual_cost : ℚ
  monthly_cost : ℚ
  percentage_of_income : ℚ
  is_affordable : Bool
  recommended_max_percentage : ℚ
  monthly_budget_impact : ℚ
  affordability_score : ℚ
  deriving DecidableEq

/-- `_calculate_affordability(annual_cost, gross_income, transaction_type)`.
The source computes `annual_cost / gross_income` with no zero guard; a zero
`gross_income` raises `ZeroDivisionError`, modelled as `none`. -/
def _calculate_affordability (annual_cost gross_income : ℚ)
    (transaction_type : Str) : Option Affordability :=
  let monthly_cost := annual_cost / 12
  if gross_income = 0 then none else
  let percentage_of_income := annual_cost / gross_income * 100
  let recommended_max : ℚ := 10
  some { annual_cost := annual_cost,
         monthly_cost := monthly_cost,
         percentage_of_income := percentage_of_income,
         is_affordable := decide (percentage_of_income ≤ recommended_max),
         recommended_max_percentage := recommended_max,
         monthly_budget_impact := monthly_cost,
         affordability_score :=
           if percentage_of_income > 0 then
             min 100 (recommended_max / percentage_of_income * 100)
           else 100 }

/-- The `assumptions` dict of `_get_calculation_assumptions` (its fixed
strings are elided; the data-dependent fields are kept). -/
structure Assumptions where
  regional_adjustments_geography : Str
  regional_adjustments_state : Str
  reliability_score : ℚ
  market_segment : Str
  deriving DecidableEq

/-- `_get_calculation_assumptions(input_data, vehicle_characteristics)`. -/
def _get_calculation_assumptions (inp : Input) (chars : VehicleChars) :
    Assumptions :=
  { regional_adjustments_geography := inp.geography_type,
    regional_adjustments_state := inp.state,
    reliability_score := (chars.reliability_score).getD 3.5,
    market_segment := (chars.market_segment).getD (str "standard") }

end PredictionService

namespace PredictionService

open EnhancedDepreciationModel (DepRow dummyDepRow)

/-- `purchase_price = input_data.get('price', input_data.get('trim_msrp', 25000))`. -/
def purchasePrice (inp : Input) : ℚ := (inp.price).getD ((inp.trim_msrp).getD 25000)

/-- The used-vehicle detection of `_calculate_purchase_tco` (vehicle age from
the system clock year, high-mileage current-year vehicles counted as used). -/
def isUsedVehicle (inp : Input) (current_year : ℤ) : Bool :=
  let vehicle_age_at_purchase := current_year - inp.year
  if vehicle_age_at_purchase > 0 then true
  else if vehicle_age_at_purchase = 0 ∧ (inp.current_mileage).getD 0 > 3000 then true
  else false

/-- The depreciation schedule selected by `_calculate_purchase_tco`: the
used-vehicle linear-decay model when `isUsedVehicle`, the enhanced
new-vehicle model otherwise. -/
def purchaseDepreciationSchedule (inp : Input) (current_year : ℤ)
    (annual_mileage : ℕ) : List DepRow :=
  let analysis_years := ((inp.analysis_years).getD 5).toNat
  if isUsedVehicle inp current_year then
    _calculate_realistic_used_vehicle_depreciation inp.make inp.year
      current_year (purchasePrice inp) analysis_years
  else
    EnhancedDepreciationModel.calculate_depreciation_schedule (purchasePrice inp)
      inp.make inp.model inp.year annual_mileage analysis_years

/-- The financing-schedule step of `_calculate_purchase_tco`. -/
def purchaseFinancingSchedule (E : Engines) (inp : Input) :
    Option (List LoanYear) :=
  if (inp.financing_type).getD (str "cash") ≠ str "cash" ∨
      (inp.loan_amount).getD 0 > 0 ∨
      inp.financing_option = some (str "finance") then
    let loan_amount := (inp.loan_amount).getD (purchasePrice inp * 0.8)
    if loan_amount > 0 then
      some (E.loanPayments
        { loan_amount := loan_amount,
          interest_rate := (inp.interest_rate).getD 5.0,
          loan_term_years := (inp.loan_term).getD 5,
          analysis_years := (inp.analysis_years).getD 5 })
    else none
  else none

/-- One row of a purchase `annual_breakdown`. -/
structure YearRow where
  year : ℕ
  ownership_year : ℤ
  vehicle_age : ℤ
  vehicle_model_year : ℤ
  cumulative_mileage : ℕ
  depreciation : ℚ
  maintenance : ℚ
  maintenance_activities : List AdjustedServiceItem
  insurance : ℚ
  fuel_energy : ℚ
  financing : ℚ
  total_annual_cost : ℚ
  deriving DecidableEq

/-- The `category_totals` dict of `_calculate_purchase_tco`: the running
sums the year loop accumulates. -/
structure CategoryTotals where
  depreciation : ℚ
  maintenance : ℚ
  insurance : ℚ
  fuel_energy : ℚ
  financing : ℚ
  deriving DecidableEq

/-- The `summary` dict of a purchase result. -/
structure PurchaseSummary where
  total_ownership_cost : ℚ
  average_annual_cost : ℚ
  cost_per_mile : ℚ
  final_vehicle_value : ℚ
  total_depreciation : ℚ
  purchase_price : ℚ
  original_msrp : ℚ
  is_used_vehicle : Bool
  total_tco_with_depreciation : ℚ
  average_annual_tco : ℚ
  cost_per_mile_tco : ℚ
  out_of_pocket_total : ℚ
  deriving DecidableEq

/-- The dict returned by `_calculate_purchase_tco`. -/
structure PurchaseResult where
  summary : PurchaseSummary
  annual_breakdown : List YearRow
  category_totals : CategoryTotals
  depreciation_schedule : List DepRow
  financing_schedule : Option (List LoanYear)
  maintenance_schedule : List AdjMaintYear
  affordability : Affordability
  assumptions : Assumptions
  display_total_cost : ℚ
  display_includes_depreciation : Bool

/-- `_calculate_purchase_tco(input_data, vehicle_characteristics,
regional_multiplier)`.  The source first computes the depreciation schedule
(`purchaseDepreciationSchedule`, lines 159-176) and the optional financing
schedule (`purchaseFinancingSchedule`, lines 178-191), then calls
`self.maintenance_calculator.get_maintenance_schedule(...)` with the keyword
arguments `vehicle_make`, `driving_style` and `vehicle_model`
(prediction_service.py lines 194-201).  The callee's signature,
`get_maintenance_schedule(self, annual_mileage, years, starting_mileage=0)`
(maintenance_utils.py line 203), declares none of those three keyword
arguments and no catch-all, and no try/except encloses the call, so every
execution raises `TypeError` here, before the year loop that would build the
annual breakdown, category totals, insurance quotes and affordability
result.  By the file's convention an uncaught exception is `none`: the
purchase calculation returns `none` for every input. -/
def _calculate_purchase_tco (E : Engines) (inp : Input) (chars : VehicleChars)
    (regional_multiplier : ℚ) (current_year : ℤ) : Option PurchaseResult :=
  none

/-- One row of a lease `annual_breakdown`. -/
structure LeaseRow where
  year : ℕ
  ownership_year : ℤ
  lease_year : ℕ
  vehicle_age : ℤ
  vehicle_model_year : ℤ
  lease_payment : ℚ
  maintenance : ℚ
  maintenance_activities : List AdjustedServiceItem
  cumulative_mileage : ℕ
  insurance : ℚ
  fuel_energy : ℚ
  fees_penalties : ℚ
  total_annual_cost : ℚ
  deriving DecidableEq

/-- The insurance arguments `_calculate_lease_tco` assembles (every year):
the vehicle value is the constant `trim_msrp`, `vehicle_model` is not
passed. -/
def leaseInsuranceQuery (inp : Input) (trim_msrp : ℚ)
    (annual_mileage_limit : ℕ) (user_age num_vehicles : ℤ)
    (regional_multiplier : ℚ) : InsuranceQuery :=
  { vehicle_value := trim_msrp,
    vehicle_make := inp.make,
    vehicle_year := inp.year,
    driver_age := user_age,
    state := inp.state,
    coverage_type := str "comprehensive",
    annual_mileage := annual_mileage_limit,
    num_vehicles := num_vehicles,
    regional_multiplier := regional_multiplier,
    vehicle_model := none }

/-- The fuel/energy step of `_calculate_lease_tco`; on the combustion branch
the source subscripts `fuel_price`, `driving_style` and `terrain` as required
keys, so their absence (a `KeyError`) is `none`. -/
def leaseFuelCost (E : Engines) (inp : Input) (chars : VehicleChars)
    (annual_mileage_limit : ℕ) : Option ℚ :=
  if (chars.is_electric).getD false then
    some (E.evCost { annual_mileage := annual_mileage_limit,
                     vehicle_efficiency := (chars.mpge).getD 100,
                     electricity_rate := (inp.electricity_rate).getD 0.12,
                     charging_preference := (inp.charging_pref).getD (str "mixed") })
  else do
    let fuel_price ← inp.fuel_price
    let driving_style ← inp.driving_style
    let terrain ← inp.terrain
    pure (E.fuelCost { annual_mileage := annual_mileage_limit,
                       mpg := (chars.mpg).getD 25,
                       fuel_price := fuel_price,
                       driving_style := driving_style,
                       terrain := terrain })

/-- One iteration of the `for year in range(1, lease_term + 1)` loop of
`_calculate_lease_tco`. -/
def leaseYearRow (E : Engines) (inp : Input)
    (lease_start_year : ℤ) (monthly_payment : ℚ) (annual_mileage_limit : ℕ)
    (trim_msrp : ℚ) (user_age num_vehicles : ℤ) (regional_multiplier : ℚ)
    (lease_maintenance_schedule : List AdjMaintYear) (annual_fuel : ℚ)
    (year : ℕ) : LeaseRow :=
  let ownership_year := lease_start_year + year - 1
  let current_mileage := annual_mileage_limit * year
  let annual_lease_payment := monthly_payment * 12
  let annual_maintenance :=
    if year ≤ lease_maintenance_schedule.length then
      (lease_maintenance_schedule.getD (year - 1) dummyAdjMaintYear).total_year_cost
    else 0
  let maintenance_activities :=
    if year ≤ lease_maintenance_schedule.length then
      (lease_maintenance_schedule.getD (year - 1) dummyAdjMaintYear).services
    else []
  let annual_insurance := E.insurancePremium
    (leaseInsuranceQuery inp trim_msrp annual_mileage_limit user_age
      num_vehicles regional_multiplier)
  let annual_fees := _calculate_lease_fees_and_penalties
    ((inp.annual_mileage).getD annual_mileage_limit) annual_mileage_limit
    year trim_msrp
  { year := year,
    ownership_year := ownership_year,
    lease_year := year,
    vehicle_age := ownership_year - inp.year,
    vehicle_model_year := inp.year,
    lease_payment := annual_lease_payment,
    maintenance := annual_maintenance,
    maintenance_activities := maintenance_activities,
    cumulative_mileage := current_mileage,
    insurance := annual_insurance,
    fuel_energy := annual_fuel,
    fees_penalties := annual_fees,
    total_annual_cost := annual_lease_payment + annual_maintenance +
      annual_insurance + annual_fuel + annual_fees }

/-- The full lease `annual_breakdown`. -/
def leaseBreakdown (E : Engines) (inp : Input) (lease_start_year : ℤ)
    (lease_term : ℤ) (monthly_payment : ℚ) (annual_mileage_limit : ℕ)
    (trim_msrp : ℚ) (user_age num_vehicles : ℤ) (regional_multiplier : ℚ)
    (lease_maintenance_schedule : List AdjMaintYear) (annual_fuel : ℚ) :
    List LeaseRow :=
  (List.range lease_term.toNat).map
    (fun i => leaseYearRow E inp lease_start_year monthly_payment
      annual_mileage_limit trim_msrp user_age num_vehicles regional_multiplier
      lease_maintenance_schedule annual_fuel (i + 1))

/-- The lease `category_totals` dict. -/
structure LeaseCategoryTotals where
  lease_payments : ℚ
  maintenance : ℚ
  insurance : ℚ
  fuel_energy : ℚ
  fees_penalties : ℚ
  deriving DecidableEq

/-- The lease `summary` dict. -/
structure LeaseSummary where
  total_lease_cost : ℚ
  average_annual_cost : ℚ
  average_monthly_cost : ℚ
  cost_per_mile : ℚ
  down_payment : ℚ
  deriving DecidableEq

/-- The dict returned by `_calculate_lease_tco`. -/
structure LeaseResult where
  summary : LeaseSummary
  annual_breakdown : List LeaseRow
  category_totals : LeaseCategoryTotals
  maintenance_schedule : List AdjMaintYear
  affordability : Affordability
  assumptions : Assumptions

/-- `_calculate_lease_tco(input_data, vehicle_characteristics,
regional_multiplier)`.  The required dict keys (`analysis_years`,
`lease_monthly_payment`, `lease_mileage_limit`, `trim_msrp`, `user_age`,
`num_household_vehicles`, `gross_income`, and the combustion fuel keys) are
extracted through `Option`: `none` is a `KeyError`.  `none` also models the
`ZeroDivisionError` on a zero lease term and on zero gross income, as in the
purchase path. -/
def _calculate_lease_tco (E : Engines) (inp : Input) (chars : VehicleChars)
    (regional_multiplier : ℚ) (current_year : ℤ) : Option LeaseResult := do
  let lease_term ← inp.analysis_years
  let monthly_payment ← inp.lease_monthly_payment
  let annual_mileage_limit ← inp.lease_mileage_limit
  let trim_msrp ← inp.trim_msrp
  let user_age ← inp.user_age
  let num_vehicles ← inp.num_household_vehicles
  let gross_income ← inp.gross_income
  let down_payment := (inp.down_payment).getD 0
  let starting_mileage := (inp.current_mileage).getD 0
  let base_maintenance_schedule := MaintenanceCalculator.get_maintenance_schedule
    annual_mileage_limit lease_term.toNat starting_mileage
  let lease_maintenance_schedule := _adjust_lease_maintenance_schedule
    base_maintenance_schedule inp.make regional_multiplier
  let annual_fuel ← leaseFuelCost E inp chars annual_mileage_limit
  let rows := leaseBreakdown E inp current_year lease_term monthly_payment
    annual_mileage_limit trim_msrp user_age num_vehicles regional_multiplier
    lease_maintenance_schedule annual_fuel
  let category_totals : LeaseCategoryTotals :=
    { lease_payments := (rows.map (·.lease_payment)).sum,
      maintenance := (rows.map (·.maintenance)).sum,
      insurance := (rows.map (·.insurance)).sum,
      fuel_energy := (rows.map (·.fuel_energy)).sum,
      fees_penalties := (rows.map (·.fees_penalties)).sum }
  let total_lease_cost := category_totals.lease_payments +
    category_totals.maintenance + category_totals.insurance +
    category_totals.fuel_energy + category_totals.fees_penalties + down_payment
  if lease_term = 0 then none else
  let average_annual_cost := total_lease_cost / (lease_term : ℚ)
  let average_monthly_cost := total_lease_cost / ((lease_term : ℚ) * 12)
  let total_miles : ℚ := (annual_mileage_limit : ℚ) * (lease_term : ℚ)
  let cost_per_mile := if total_miles > 0 then total_lease_cost / total_miles else 0
  match _calculate_affordability average_annual_cost gross_income (str "lease") with
  | none => none
  | some afford =>
    some { summary :=
             { total_lease_cost := total_lease_cost,
               average_annual_cost := average_annual_cost,
               average_monthly_cost := average_monthly_cost,
               cost_per_mile := cost_per_mile,
               down_payment := down_payment },
           annual_breakdown := rows,
           category_totals := category_totals,
           maintenance_schedule := lease_maintenance_schedule,
           affordability := afford,
           assumptions := _get_calculation_assumptions inp chars }

/-- The dict returned by `calculate_total_cost_of_ownership`: a purchase or
a lease result depending on the routing. -/
inductive TCOResult where
  | purchase : PurchaseResult → TCOResult
  | lease : LeaseResult → TCOResult

/-- `calculate_total_cost_of_ownership(input_data)`: fetch vehicle
characteristics and the regional multiplier, then route on
`transaction_type.lower() == 'lease'` with `'purchase'` as the default.
There is no validation step.  `current_year` is the system clock year the
two branch methods read via `datetime.now().year`. -/
def calculate_total_cost_of_ownership (E : Engines) (inp : Input)
    (current_year : ℤ) : Option TCOResult :=
  let vehicle_characteristics :=
    E.getVehicleCharacteristics inp.make inp.model inp.year
  let regional_multiplier :=
    get_regional_cost_multiplier ((inp.zip_code).getD (str "")) inp.state
  if lowerStr ((inp.transaction_type).getD (str "purchase")) = str "lease" then
    (_calculate_lease_tco E inp vehicle_characteristics regional_multiplier
      current_year).map TCOResult.lease
  else
    (_calculate_purchase_tco E inp vehicle_characteristics regional_multiplier
      current_year).map TCOResult.purchase

end PredictionService

/-! ### Helper lemmas and concrete fixtures used by the verification -/

open MaintenanceCalculator EnhancedDepreciationModel PredictionService

/-- Telescoping a year-indexed value function, in the shape produced by the
depreciation schedule's annual-depreciation column. -/
theorem telescope_sum (initial : ℚ) (v : ℕ → ℚ) :
    ∀ n : ℕ, 0 < n →
      ((List.range n).map
          (fun i => (if i + 1 = 1 then initial else v (i + 1 - 1)) - v (i + 1))).sum
        = initial - v n := by
  intro n
  induction n with
  | zero => intro h; exact absurd h (lt_irrefl 0)
  | succ m ih =>
    intro _
    rcases Nat.eq_zero_or_pos m with h0 | hpos
    · subst h0
      rw [show List.range 1 = [0] from rfl]
      simp
    · rw [List.range_succ, List.map_append, List.sum_append, ih hpos]
      have hne : m + 1 ≠ 1 := by omega
      simp only [List.map_cons, List.map_nil, List.sum_cons, List.sum_nil, if_neg hne,
        Nat.add_sub_cancel]
      ring

/-- The last element of a map over `List.range`. -/
theorem range_map_getLastD {α : Type} (g : ℕ → α) (d : α) :
    ∀ n : ℕ, 0 < n → ((List.range n).map g).getLastD d = g (n - 1) := by
  intro n
  cases n with
  | zero => intro h; exact absurd h (lt_irrefl 0)
  | succ m =>
    intro _
    rw [List.range_succ, List.map_append]
    simp [List.getLastD_concat]

/-- Telescoping of floored occurrence counts over the years, the `ℕ`-division
shape of the maintenance schedule. -/
theorem sum_div_diff (annual starting interval : ℕ) : ∀ n : ℕ,
    ((List.range n).map (fun i =>
        (starting + annual * (i + 1)) / interval - (starting + annual * i) / interval)).sum
      = (starting + annual * n) / interval - starting / interval := by
  intro n
  induction n with
  | zero => simp
  | succ m ih =>
    rw [List.range_succ, List.map_append, List.sum_append, ih]
    have h1 : starting / interval ≤ (starting + annual * m) / interval :=
      Nat.div_le_div_right (by omega)
    have h2 : (starting + annual * m) / interval ≤ (starting + annual * (m + 1)) / interval :=
      Nat.div_le_div_right (by nlinarith)
    simp only [List.map_cons, List.map_nil, List.sum_cons, List.sum_nil]
    omega

/-- The occurrence count of one service name in a `filterMap`-built services
list: when no entry of the table displays as `sname`, the count is zero. -/
theorem servicesCount_filterMap_zero (cnt : Str × ℕ → ℕ) (item : Str × ℕ → ServiceItem)
    (hserv : ∀ p, (item p).service = displayName p.1) :
    ∀ (table : List (Str × ℕ)) (sname : Str),
      (∀ q ∈ table, displayName q.1 ≠ sname) →
      servicesCount (table.filterMap (fun p => if cnt p > 0 then some (item p) else none))
        sname = 0 := by
  intro table
  induction table with
  | nil => intro sname _; rfl
  | cons p t ih =>
    intro sname h
    have hp : displayName p.1 ≠ sname := h p (List.mem_cons_self p t)
    have ht : ∀ q ∈ t, displayName q.1 ≠ sname := fun q hq => h q (List.mem_cons_of_mem p hq)
    rw [List.filterMap_cons]
    by_cases hc : cnt p > 0
    · simp only [if_pos hc]
      rw [show servicesCount (item p ::
            t.filterMap (fun p => if cnt p > 0 then some (item p) else none)) sname
          = (if (item p).service = sname then (item p).frequency else 0)
            + servicesCount (t.filterMap (fun p => if cnt p > 0 then some (item p) else none))
                sname from by
        by_cases hs : (item p).service = sname <;> simp [servicesCount, List.filter_cons, hs]]
      rw [hserv p, if_neg hp, ih sname ht]
    · simp only [if_neg hc]
      exact ih sname ht

/-- The occurrence count of one named service in a `filterMap`-built services
list equals the count function at that service's table entry, provided the
displayed names of the table are distinct. -/
theorem servicesCount_filterMap_count (cnt : Str × ℕ → ℕ) (item : Str × ℕ → ServiceItem)
    (hserv : ∀ p, (item p).service = displayName p.1)
    (hfreq : ∀ p, (item p).frequency = cnt p) :
    ∀ (table : List (Str × ℕ)) (name : Str) (interval : ℕ),
      (name, interval) ∈ table →
      (table.map (fun p => displayName p.1)).Nodup →
      servicesCount (table.filterMap (fun p => if cnt p > 0 then some (item p) else none))
          (displayName name)
        = cnt (name, interval) := by
  intro table
  induction table with
  | nil => intro name interval h _; cases h
  | cons p t ih =>
    intro name interval hmem hnodup
    have hnd1 : displayName p.1 ∉ t.map (fun q => displayName q.1) :=
      (List.nodup_cons.mp hnodup).1
    have hnd2 : (t.map (fun q => displayName q.1)).Nodup := (List.nodup_cons.mp hnodup).2
    rw [List.filterMap_cons]
    rcases List.mem_cons.mp hmem with heq | hmem'
    · have hp1 : p.1 = name := by rw [← heq]
      have hzero : ∀ q ∈ t, displayName q.1 ≠ displayName name := by
        intro q hq hcontra
        apply hnd1
        rw [hp1, ← hcontra]
        exact List.mem_map_of_mem _ hq
      by_cases hc : cnt p > 0
      · simp only [if_pos hc]
        rw [show servicesCount (item p ::
              t.filterMap (fun p => if cnt p > 0 then some (item p) else none)) (displayName name)
            = (if (item p).service = displayName name then (item p).frequency else 0)
              + servicesCount (t.filterMap (fun p => if cnt p > 0 then some (item p) else none))
                  (displayName name) from by
          by_cases hs : (item p).service = displayName name <;>
            simp [servicesCount, List.filter_cons, hs]]
        rw [hserv p, hp1, if_pos rfl, hfreq p,
          servicesCount_filterMap_zero cnt item hserv t (displayName name) hzero, heq]
        omega
      · simp only [if_neg hc]
        rw [servicesCount_filterMap_zero cnt item hserv t (displayName name) hzero, heq]
        omega
    · have hne : displayName p.1 ≠ displayName name := by
        intro hcontra
        apply hnd1
        rw [hcontra]
        exact List.mem_map_of_mem _ hmem'
      by_cases hc : cnt p > 0
      · simp only [if_pos hc]
        rw [show servicesCount (item p ::
              t.filterMap (fun p => if cnt p > 0 then some (item p) else none)) (displayName name)
            = (if (item p).service = displayName name then (item p).frequency else 0)
              + servicesCount (t.filterMap (fun p => if cnt p > 0 then some (item p) else none))
                  (displayName name) from by
          by_cases hs : (item p).service = displayName name <;>
            simp [servicesCount, List.filter_cons, hs]]
        rw [hserv p, if_neg hne]
        simpa using ih name interval hmem' hnd2
      · simp only [if_neg hc]
        exact ih name interval hmem' hnd2

/-- Engines whose collaborator outputs are all zero/empty: one concrete
instantiation of the opaque external services. -/
def zeroEngines : Engines :=
  { getVehicleCharacteristics := fun _ _ _ =>
      { mpg := none, efficiency := none, mpge := none, is_electric := none,
        reliability_score := none, market_segment := none },
    insurancePremium := fun _ => 0,
    fuelCost := fun _ => 0,
    evCost := fun _ => 0,
    loanPayments := fun _ => [] }

/-- Engines whose insurance premium is the vehicle value it is quoted on
(an instrumented collaborator that reveals which value the orchestrator
passes). -/
def valueEngines : Engines :=
  { getVehicleCharacteristics := fun _ _ _ =>
      { mpg := none, efficiency := none, mpge := none, is_electric := none,
        reliability_score := none, market_segment := none },
    insurancePremium := fun q => q.vehicle_value,
    fuelCost := fun _ => 0,
    evCost := fun _ => 0,
    loanPayments := fun _ => [] }

/-- Vehicle characteristics with every key absent (all defaults apply). -/
def defaultChars : VehicleChars :=
  { mpg := none, efficiency := none, mpge := none, is_electric := none,
    reliability_score := none, market_segment := none }

/-- A complete purchase scenario: a new 2025 Toyota Camry, 28000 dollars,
12000 miles a year, a one-year horizon. -/
def baseInput : Input :=
  { make := str "Toyota", model := str "Camry", year := 2025, state := str "TX",
    geography_type := str "suburban",
    annual_mileage := some 12000, current_mileage := some 0,
    price := some 28000, trim_msrp := none, analysis_years := some 1,
    transaction_type := none, zip_code := none, financing_type := none,
    loan_amount := none, financing_option := none, interest_rate := none,
    loan_term := none, driving_style := none, shop_type := none, terrain := none,
    driver_age := none, coverage_type := none, num_household_vehicles := none,
    is_electric := none, electricity_rate := none, charging_preference := none,
    charging_pref := none, fuel_price := none, gross_income := some 60000,
    down_payment := none, lease_monthly_payment := none,
    lease_mileage_limit := none, user_age := none }

/-- A scenario with an invalid transaction type and a 20-year horizon. -/
def invalidInput : Input :=
  { baseInput with
    transaction_type := some (str "tradein")
    analysis_years := some 20
    gross_income := some 50000 }

/-- A complete lease scenario: 3-year term, 40000-dollar MSRP. -/
def leaseInput : Input :=
  { baseInput with
    transaction_type := some (str "lease")
    analysis_years := some 3
    lease_monthly_payment := some 400
    lease_mileage_limit := some 12000
    trim_msrp := some 40000
    user_age := some 35
    num_household_vehicles := some 2
    gross_income := some 50000
    fuel_price := some 3.5
    driving_style := some (str "normal")
    terrain := some (str "flat") }

/-- The lease scenario with a 20-year term, above the documented 15-year
bound. -/
def leaseInput20 : Input := { leaseInput with analysis_years := some 20 }

/-- The lease scenario with a zero-year term. -/
def zeroHorizonLease : Input := { leaseInput with analysis_years := some 0 }

/-- The lease scenario with a zero gross income. -/
def zeroIncomeLease : Input := { leaseInput with gross_income := some 0 }

/-- The calendar ownership year of the first annual-breakdown row of a TCO
result: on the lease path this is the clock year the source reads via
`datetime.now().year`. -/
def tcoFirstOwnershipYear : TCOResult → Option ℤ
  | TCOResult.purchase p => (p.annual_breakdown.map (·.ownership_year)).head?
  | TCOResult.lease l => (l.annual_breakdown.map (·.ownership_year)).head?

/-- An `Option` bind whose continuation always fails is `none` (the shape of
the lease path's required-key extraction). -/
theorem bind_none_of_all {α β : Type} (x : Option α) (f : α → Option β)
    (h : ∀ a, f a = none) : (x >>= f) = none := by
  cases x <;> simp [h]

/-- Every row the used-vehicle year loop emits has its value floored at
`initial_value * 0.15`. -/
theorem usedRows_value_floor (model_year current_year : ℤ) (initial_value : ℚ)
    (rates : List ℚ) (brand_multiplier : ℚ) :
    ∀ (remaining year : ℕ) (current : ℚ),
      ∀ r ∈ usedRowsAux model_year current_year initial_value rates
          brand_multiplier year remaining current,
        initial_value * 0.15 ≤ r.vehicle_value := by
  intro remaining
  induction remaining with
  | zero => intro year current r hr; simp [usedRowsAux] at hr
  | succ m ih =>
    intro year current r hr
    rw [usedRowsAux] at hr
    rcases List.mem_cons.mp hr with h1 | h2
    · subst h1
      exact le_max_right _ _
    · exact ih (year + 1) _ r h2

/-- Claim C1 (code bug): the separation of out-of-pocket cost from total
cost of ownership is never computed at all.  The source's purchase path
raises `TypeError` at its `get_maintenance_schedule` call (undeclared
keyword arguments, prediction_service.py lines 194-201 against
maintenance_utils.py line 203) before the accumulation loop, for every input
and every collaborator behaviour, so no purchase calculation ever produces
the claimed totals; in particular the concrete purchase scenario returns no
result. -/
theorem C1_purchase_totals_unreachable :
    (∀ (E : Engines) (inp : Input) (chars : VehicleChars)
        (regional_multiplier : ℚ) (current_year : ℤ),
      _calculate_purchase_tco E inp chars regional_multiplier current_year = none)
    ∧ calculate_total_cost_of_ownership zeroEngines baseInput 2025 = none :=
  ⟨fun _ _ _ _ _ => rfl, rfl⟩

/-- Claim C5: for every input to the new-vehicle depreciation engine with a
positive initial value and a horizon of at least one year, the annual
depreciation amounts summed over the horizon equal the initial value minus
the final vehicle value, exactly. -/
theorem C5_depreciation_telescopes (initial_value : ℚ) (make model : Str)
    (model_year : ℤ) (annual_mileage years : ℕ)
    (hinit : 0 < initial_value) (hyears : 0 < years) :
    ((calculate_depreciation_schedule initial_value make model model_year
        annual_mileage years).map (·.annual_depreciation)).sum
      = initial_value
        - ((calculate_depreciation_schedule initial_value make model model_year
            annual_mileage years).getLastD dummyDepRow).vehicle_value := by
  have hmap : (calculate_depreciation_schedule initial_value make model model_year
        annual_mileage years).map (·.annual_depreciation)
      = (List.range years).map (fun i =>
          (if i + 1 = 1 then initial_value
           else scheduleValueAt initial_value make model annual_mileage (i + 1 - 1))
            - scheduleValueAt initial_value make model annual_mileage (i + 1)) := by
    simp only [calculate_depreciation_schedule, List.map_map]
    rfl
  rw [hmap, telescope_sum initial_value
    (scheduleValueAt initial_value make model annual_mileage) years hyears]
  congr 1
  simp only [calculate_depreciation_schedule]
  rw [range_map_getLastD _ dummyDepRow years hyears]
  show scheduleValueAt initial_value make model annual_mileage years
    = scheduleValueAt initial_value make model annual_mileage (years - 1 + 1)
  rw [Nat.sub_add_cancel hyears]

/-- Witness for C5 at a concrete input: a 28000-dollar 2025 Toyota Camry at
12000 miles a year over five years. -/
theorem C5_depreciation_telescopes_witness :
    ((calculate_depreciation_schedule 28000 (str "Toyota") (str "Camry") 2025
        12000 5).map (·.annual_depreciation)).sum
      = 28000
        - ((calculate_depreciation_schedule 28000 (str "Toyota") (str "Camry") 2025
            12000 5).getLastD dummyDepRow).vehicle_value :=
  C5_depreciation_telescopes 28000 (str "Toyota") (str "Camry") 2025 12000 5
    (by decide) (by decide)

/-- Claim C7: in the used-vehicle linear-decay depreciation model, every
year's vehicle value is at least 15 percent of the purchase price. -/
theorem C7_used_vehicle_residual_floor (make : Str)
    (model_year current_year : ℤ) (initial_value : ℚ) (analysis_years i : ℕ)
    (hi : i < (_calculate_realistic_used_vehicle_depreciation make model_year
        current_year initial_value analysis_years).length) :
    initial_value * 0.15 ≤
      ((_calculate_realistic_used_vehicle_depreciation make model_year
          current_year initial_value analysis_years).getD i dummyDepRow).vehicle_value := by
  have hmem : (_calculate_realistic_used_vehicle_depreciation make model_year
        current_year initial_value analysis_years).getD i dummyDepRow
      ∈ _calculate_realistic_used_vehicle_depreciation make model_year
          current_year initial_value analysis_years := by
    rw [List.getD_eq_getElem _ _ hi]
    exact List.getElem_mem hi
  exact usedRows_value_floor model_year current_year initial_value
    (usedAnnualRates (current_year - model_year))
    (lookupD used_brand_multipliers make 1.0) analysis_years 1 initial_value _ hmem

/-- Witness for C7 at a concrete input: a used 2018 BMW bought in 2025 for
18000 dollars; after 5 years its value still is at least 15 percent of the
purchase price. -/
theorem C7_used_vehicle_residual_floor_witness :
    (18000 : ℚ) * 0.15 ≤
      ((_calculate_realistic_used_vehicle_depreciation (str "BMW") 2018 2025
          18000 5).getD 4 dummyDepRow).vehicle_value :=
  C7_used_vehicle_residual_floor (str "BMW") 2018 2025 18000 5 4 (by decide)

/-- Claim C4: for every service of the interval table, every starting
mileage, annual mileage and number of years, the year-by-year occurrence
counts of the maintenance schedule sum to the lifetime count computed from
total mileage: `Σ occurrencesThisYear = ⌊finalMileage/interval⌋ −
⌊startingMileage/interval⌋`, so services used up by the starting mileage are
never double-billed and fractional intervals carry over across years. -/
theorem C4_maintenance_rechunking (annual_mileage starting_mileage years : ℕ)
    (name : Str) (interval : ℕ)
    (hmem : (name, interval) ∈ MaintenanceCalculator.service_intervals) :
    ((MaintenanceCalculator.get_maintenance_schedule annual_mileage years
        starting_mileage).map
      (fun row => MaintenanceCalculator.yearServiceCount row (displayName name))).sum
      = (starting_mileage + annual_mileage * years) / interval
        - starting_mileage / interval := by
  have hnodup : (MaintenanceCalculator.service_intervals.map
      (fun p => displayName p.1)).Nodup := by decide
  have hmap : (MaintenanceCalculator.get_maintenance_schedule annual_mileage years
        starting_mileage).map
      (fun row => MaintenanceCalculator.yearServiceCount row (displayName name))
      = (List.range years).map (fun i =>
          (starting_mileage + annual_mileage * (i + 1)) / interval
            - (starting_mileage + annual_mileage * i) / interval) := by
    simp only [MaintenanceCalculator.get_maintenance_schedule, List.map_map]
    refine List.map_congr_left ?_
    intro i _
    show MaintenanceCalculator.servicesCount
        (MaintenanceCalculator.yearServices annual_mileage starting_mileage (i + 1))
        (displayName name) = _
    have h := servicesCount_filterMap_count
      (fun p => (starting_mileage + annual_mileage * (i + 1)) / p.2
        - (starting_mileage + annual_mileage * (i + 1 - 1)) / p.2)
      (fun p =>
        { service := displayName p.1,
          frequency := (starting_mileage + annual_mileage * (i + 1)) / p.2
            - (starting_mileage + annual_mileage * (i + 1 - 1)) / p.2,
          cost_per_service := lookupD MaintenanceCalculator.service_costs p.1 0,
          total_cost := lookupD MaintenanceCalculator.service_costs p.1 0 *
            (((starting_mileage + annual_mileage * (i + 1)) / p.2
              - (starting_mileage + annual_mileage * (i + 1 - 1)) / p.2 : ℕ) : ℚ),
          due_at_mileage :=
            ((starting_mileage + annual_mileage * (i + 1 - 1)) / p.2 + 1) * p.2 })
      (fun _ => rfl) (fun _ => rfl)
      MaintenanceCalculator.service_intervals name interval hmem hnodup
    exact h
  rw [hmap, sum_div_diff]

/-- Witness for C4 at a concrete input: oil changes every 7500 miles, a car
bought at 30000 miles and driven 12000 miles a year for three years. -/
theorem C4_maintenance_rechunking_witness :
    ((MaintenanceCalculator.get_maintenance_schedule 12000 3 30000).map
      (fun row => MaintenanceCalculator.yearServiceCount row
        (displayName (str "oil_change")))).sum
      = (30000 + 12000 * 3) / 7500 - 30000 / 7500 :=
  C4_maintenance_rechunking 12000 30000 3 (str "oil_change") 7500 (by decide)

/-- Claim C8: segment classification always returns exactly one of the eight
segments and follows the fixed priority order: electric, then luxury brand,
then sports keyword, then truck keyword, then suv keyword, then compact
keyword, then economy keyword, then the sedan default — the first matching
rule wins. -/
theorem C8_segment_classification_total_priority (make model : Str) :
    _classify_vehicle_segment make model ∈
        [str "electric", str "luxury", str "sports", str "truck", str "suv",
         str "compact", str "economy", str "sedan"]
    ∧ (isElectricMatch make model = true →
        _classify_vehicle_segment make model = str "electric")
    ∧ (isElectricMatch make model = false → isLuxuryMatch make = true →
        _classify_vehicle_segment make model = str "luxury")
    ∧ (isElectricMatch make model = false → isLuxuryMatch make = false →
        isSportsMatch model = true →
        _classify_vehicle_segment make model = str "sports")
    ∧ (isElectricMatch make model = false → isLuxuryMatch make = false →
        isSportsMatch model = false → isTruckMatch model = true →
        _classify_vehicle_segment make model = str "truck")
    ∧ (isElectricMatch make model = false → isLuxuryMatch make = false →
        isSportsMatch model = false → isTruckMatch model = false →
        isSuvMatch model = true →
        _classify_vehicle_segment make model = str "suv")
    ∧ (isElectricMatch make model = false → isLuxuryMatch make = false →
        isSportsMatch model = false → isTruckMatch model = false →
        isSuvMatch model = false → isCompactMatch model = true →
        _classify_vehicle_segment make model = str "compact")
    ∧ (isElectricMatch make model = false → isLuxuryMatch make = false →
        isSportsMatch model = false → isTruckMatch model = false →
        isSuvMatch model = false → isCompactMatch model = false →
        isEconomyMatch model = true →
        _classify_vehicle_segment make model = str "economy")
    ∧ (isElectricMatch make model = false → isLuxuryMatch make = false →
        isSportsMatch model = false → isTruckMatch model = false →
        isSuvMatch model = false → isCompactMatch model = false →
        isEconomyMatch model = false →
        _classify_vehicle_segment make model = str "sedan") := by
  refine ⟨?_, ?_, ?_, ?_, ?_, ?_, ?_, ?_, ?_⟩
  · unfold _classify_vehicle_segment
    repeat' split
    all_goals decide
  all_goals intros; simp [_classify_vehicle_segment, *]

/-- Witness for C8: one vehicle for each of the eight segments, classified
through the respective priority rule. -/
theorem C8_segment_classification_total_priority_witness :
    _classify_vehicle_segment (str "Tesla") (str "Model S") = str "electric"
    ∧ _classify_vehicle_segment (str "BMW") (str "3 Series") = str "luxury"
    ∧ _classify_vehicle_segment (str "Ford") (str "Mustang") = str "sports"
    ∧ _classify_vehicle_segment (str "Ford") (str "F-150") = str "truck"
    ∧ _classify_vehicle_segment (str "Honda") (str "CR-V") = str "suv"
    ∧ _classify_vehicle_segment (str "Honda") (str "Civic") = str "compact"
    ∧ _classify_vehicle_segment (str "Chevrolet") (str "Spark") = str "economy"
    ∧ _classify_vehicle_segment (str "Ford") (str "Taurus") = str "sedan" :=
  ⟨(C8_segment_classification_total_priority (str "Tesla") (str "Model S")).2.1
      (by decide),
   (C8_segment_classification_total_priority (str "BMW") (str "3 Series")).2.2.1
      (by decide) (by decide),
   (C8_segment_classification_total_priority (str "Ford") (str "Mustang")).2.2.2.1
      (by decide) (by decide) (by decide),
   (C8_segment_classification_total_priority (str "Ford") (str "F-150")).2.2.2.2.1
      (by decide) (by decide) (by decide) (by decide),
   (C8_segment_classification_total_priority (str "Honda") (str "CR-V")).2.2.2.2.2.1
      (by decide) (by decide) (by decide) (by decide) (by decide),
   (C8_segment_classification_total_priority (str "Honda") (str "Civic")).2.2.2.2.2.2.1
      (by decide) (by decide) (by decide) (by decide) (by decide) (by decide),
   (C8_segment_classification_total_priority (str "Chevrolet")
      (str "Spark")).2.2.2.2.2.2.2.1
      (by decide) (by decide) (by decide) (by decide) (by decide) (by decide)
      (by decide),
   (C8_segment_classification_total_priority (str "Ford")
      (str "Taurus")).2.2.2.2.2.2.2.2
      (by decide) (by decide) (by decide) (by decide) (by decide) (by decide)
      (by decide)⟩

/-- Counterexample to claim C2 as stated: the mileage multiplier jumps
discontinuously at 5000 annual miles.  Moving from 5000 to 5001 miles raises
the multiplier by more than 1/16 (from 0.85 to above 0.9125), five thousand
times the adjacent per-mile slope, which is the step from 5001 to 5002. -/
theorem C2_counterexample_mileage_jump_at_5000 :
    _calculate_mileage_impact 5000 = 0.85
    ∧ _calculate_mileage_impact 5001 - _calculate_mileage_impact 5000 > 1 / 16
    ∧ _calculate_mileage_impact 5002 - _calculate_mileage_impact 5001 < 1 / 10000 := by
  norm_num [_calculate_mileage_impact]

/-- Claim C2 as amended: the mileage multiplier is continuous at the 100,
1000, 12000 and 20000 breakpoints — on each adjacent piece it is linear and
anchored at the breakpoint value — but at 5000 it is discontinuous: the
value at 5000 is 0.85 while every input above 5000 is mapped to at least
0.9125, because the 5000–12000 branch computes its ratio as
`annual_mileage / 12000` instead of interpolating from 5000. -/
theorem C2_mileage_multiplier_breakpoints :
    (∀ x : ℚ, x ≤ 100 → _calculate_mileage_impact x = 0.60)
    ∧ (∀ x : ℚ, 100 < x → x ≤ 1000 →
        _calculate_mileage_impact x - _calculate_mileage_impact 100
          = (x - 100) * (0.15 / 900))
    ∧ (∀ x : ℚ, 1000 < x → x ≤ 5000 →
        _calculate_mileage_impact x - _calculate_mileage_impact 1000
          = (x - 1000) * (0.10 / 4000))
    ∧ (∀ x : ℚ, 5000 < x → x ≤ 12000 →
        _calculate_mileage_impact 12000 - _calculate_mileage_impact x
          = (12000 - x) * (0.15 / 12000))
    ∧ (∀ x : ℚ, 12000 < x → x ≤ 20000 →
        _calculate_mileage_impact x - _calculate_mileage_impact 12000
          = (x - 12000) * (0.25 / 8000))
    ∧ (∀ x : ℚ, 20000 < x → x ≤ 40000 →
        _calculate_mileage_impact x - _calculate_mileage_impact 20000
          = (x - 20000) * (0.25 / 20000))
    ∧ (∀ x : ℚ, 5000 < x → 0.9125 ≤ _calculate_mileage_impact x)
    ∧ _calculate_mileage_impact 5000 = 0.85 := by
  have e100 : _calculate_mileage_impact 100 = 0.60 := by
    norm_num [_calculate_mileage_impact]
  have e1000 : _calculate_mileage_impact 1000 = 0.75 := by
    norm_num [_calculate_mileage_impact]
  have e12000 : _calculate_mileage_impact 12000 = 1 := by
    norm_num [_calculate_mileage_impact]
  have e20000 : _calculate_mileage_impact 20000 = 1.25 := by
    norm_num [_calculate_mileage_impact]
  refine ⟨?_, ?_, ?_, ?_, ?_, ?_, ?_, ?_⟩
  · intro x hx
    simp only [_calculate_mileage_impact, if_pos hx]
  · intro x h1 h2
    have ex : _calculate_mileage_impact x = 0.60 + (x - 100) / 900 * 0.15 := by
      simp only [_calculate_mileage_impact]
      rw [if_neg (not_le.mpr h1), if_pos h2]
    rw [ex, e100]; ring
  · intro x h1 h2
    have ex : _calculate_mileage_impact x = 0.75 + (x - 1000) / 4000 * 0.10 := by
      simp only [_calculate_mileage_impact]
      rw [if_neg (by linarith), if_neg (not_le.mpr h1), if_pos h2]
    rw [ex, e1000]; ring
  · intro x h1 h2
    have ex : _calculate_mileage_impact x = 0.85 + x / 12000 * 0.15 := by
      simp only [_calculate_mileage_impact]
      rw [if_neg (by linarith), if_neg (by linarith), if_neg (not_le.mpr h1),
        if_pos h2]
    rw [ex, e12000]; ring
  · intro x h1 h2
    have ex : _calculate_mileage_impact x = 1.0 + (x - 12000) / 8000 * 0.25 := by
      simp only [_calculate_mileage_impact]
      rw [if_neg (by linarith), if_neg (by linarith), if_neg (by linarith),
        if_neg (not_le.mpr h1), if_pos h2]
    rw [ex, e12000]; ring
  · intro x h1 h2
    have ex : _calculate_mileage_impact x = 1.25 + (x - 20000) / 20000 * 0.25 := by
      simp only [_calculate_mileage_impact]
      rw [if_neg (by linarith), if_neg (by linarith), if_neg (by linarith),
        if_neg (by linarith), if_neg (not_le.mpr h1)]
      rw [min_eq_right]
      have : (x - 20000) / 20000 * 0.25 = (x - 20000) * (1 / 80000) := by ring
      rw [this]
      linarith
    rw [ex, e20000]; ring
  · intro x hx
    simp only [_calculate_mileage_impact]
    rw [if_neg (by linarith), if_neg (by linarith), if_neg (not_le.mpr hx)]
    split_ifs with h4 h5
    · have : x / 12000 * 0.15 = x * (1 / 80000) := by ring
      rw [this]
      linarith
    · have : (x - 12000) / 8000 * 0.25 = (x - 12000) * (1 / 32000) := by ring
      rw [this]
      have hx12 : (12000 : ℚ) < x := not_le.mp h4
      linarith
    · refine le_min (by norm_num) ?_
      have : (x - 20000) / 20000 * 0.25 = (x - 20000) * (1 / 80000) := by ring
      rw [this]
      have hx20 : (20000 : ℚ) < x := not_le.mp h5
      linarith
  · norm_num [_calculate_mileage_impact]

/-- Witness for the amended C2, instantiating every piece at a sample
point. -/
theorem C2_mileage_multiplier_breakpoints_witness :
    _calculate_mileage_impact 50 = 0.60
    ∧ _calculate_mileage_impact 550 - _calculate_mileage_impact 100
        = (550 - 100) * (0.15 / 900)
    ∧ _calculate_mileage_impact 3000 - _calculate_mileage_impact 1000
        = (3000 - 1000) * (0.10 / 4000)
    ∧ _calculate_mileage_impact 12000 - _calculate_mileage_impact 8000
        = (12000 - 8000) * (0.15 / 12000)
    ∧ _calculate_mileage_impact 16000 - _calculate_mileage_impact 12000
        = (16000 - 12000) * (0.25 / 8000)
    ∧ _calculate_mileage_impact 30000 - _calculate_mileage_impact 20000
        = (30000 - 20000) * (0.25 / 20000)
    ∧ 0.9125 ≤ _calculate_mileage_impact 5001
    ∧ _calculate_mileage_impact 5000 = 0.85 :=
  ⟨C2_mileage_multiplier_breakpoints.1 50 (by decide),
   C2_mileage_multiplier_breakpoints.2.1 550 (by decide) (by decide),
   C2_mileage_multiplier_breakpoints.2.2.1 3000 (by decide) (by decide),
   C2_mileage_multiplier_breakpoints.2.2.2.1 8000 (by decide) (by decide),
   C2_mileage_multiplier_breakpoints.2.2.2.2.1 16000 (by decide) (by decide),
   C2_mileage_multiplier_breakpoints.2.2.2.2.2.1 30000 (by decide) (by decide),
   C2_mileage_multiplier_breakpoints.2.2.2.2.2.2.1 5001 (by decide),
   C2_mileage_multiplier_breakpoints.2.2.2.2.2.2.2⟩

/-- Counterexample to claim C6 as stated: in a lease calculation, with an
instrumented insurance engine that returns exactly the vehicle value it is
quoted on, every year's premium equals the constant trim MSRP (40000), not a
current depreciated value — the lease path quotes insurance on
`trim_msrp` every year. -/
theorem C6_counterexample_lease_msrp_insurance :
    leaseInput.trim_msrp = some 40000
    ∧ ((_calculate_lease_tco valueEngines leaseInput defaultChars 1 2025).map
        (fun r => r.annual_breakdown.map (·.insurance)))
      = some [40000, 40000, 40000] := by
  constructor
  · rfl
  · rfl

/-- Claim C6 as amended: no purchase calculation ever computes an insurance
premium — the purchase path fails with a `TypeError` at its
maintenance-schedule call before the first insurance call — and in lease
calculations the annual premium is computed from the constant trim MSRP in
every year of the term, not from a current depreciated value. -/
theorem C6_insurance_value_basis :
    (∀ (E : Engines) (inp : Input) (chars : VehicleChars) (regional : ℚ)
        (cy : ℤ),
      _calculate_purchase_tco E inp chars regional cy = none)
    ∧ (∀ (E : Engines) (inp : Input) (cy term : ℤ) (payment : ℚ) (limit : ℕ)
          (msrp : ℚ) (uage numv : ℤ) (regional : ℚ)
          (sched : List AdjMaintYear) (fuel : ℚ),
        (leaseBreakdown E inp cy term payment limit msrp uage numv regional
            sched fuel).map (·.insurance)
          = List.replicate term.toNat
              (E.insurancePremium (leaseInsuranceQuery inp msrp limit uage numv regional)))
    ∧ (∀ (inp : Input) (msrp : ℚ) (limit : ℕ) (uage numv : ℤ) (regional : ℚ),
        (leaseInsuranceQuery inp msrp limit uage numv regional).vehicle_value = msrp) := by
  refine ⟨fun _ _ _ _ _ => rfl, ?_, fun _ _ _ _ _ _ => rfl⟩
  intro E inp cy term payment limit msrp uage numv regional sched fuel
  have h1 : (leaseBreakdown E inp cy term payment limit msrp uage numv regional
        sched fuel).map (·.insurance)
      = (List.range term.toNat).map (fun _ =>
          E.insurancePremium (leaseInsuranceQuery inp msrp limit uage numv regional)) := by
    simp only [leaseBreakdown, List.map_map]
    rfl
  rw [h1, List.map_const', List.length_range]

/-- Counterexample to claim C3 as stated: a lease scenario with a 20-year
horizon — above the documented 15-year bound — is not rejected and no
structured validation failure is returned: the orchestration computes a full
20-year lease schedule with the invalid horizon. -/
theorem C3_counterexample_invalid_inputs_computed :
    ((calculate_total_cost_of_ownership zeroEngines leaseInput20 2025).map
      (fun r => match r with
        | TCOResult.purchase p => p.annual_breakdown.length
        | TCOResult.lease l => l.annual_breakdown.length)) = some 20 := by
  rfl

/-- Claim C3 as amended: the orchestration performs no input validation and
never returns a structured validation result.  Any transaction type other
than "lease", valid or not, is routed to the purchase calculation, which
fails for every input with an uncaught `TypeError` at its
maintenance-schedule call; lease inputs are computed with the horizon
exactly as given, so a lease horizon above 15 produces a schedule of that
length, and a zero lease horizon ends in an uncaught division-by-zero
(modelled `none`) instead of a structured error result. -/
theorem C3_no_validation_routing :
    (∀ (E : Engines) (inp : Input) (cy : ℤ),
        lowerStr ((inp.transaction_type).getD (str "purchase")) ≠ str "lease" →
        calculate_total_cost_of_ownership E inp cy
          = (_calculate_purchase_tco E inp
              (E.getVehicleCharacteristics inp.make inp.model inp.year)
              (get_regional_cost_multiplier ((inp.zip_code).getD (str ""))
                inp.state) cy).map TCOResult.purchase)
    ∧ (∀ (E : Engines) (inp : Input) (chars : VehicleChars) (regional : ℚ)
          (cy : ℤ),
        _calculate_purchase_tco E inp chars regional cy = none)
    ∧ (∀ (E : Engines) (inp : Input) (cy term : ℤ) (payment : ℚ) (limit : ℕ)
          (msrp : ℚ) (uage numv : ℤ) (regional : ℚ)
          (sched : List AdjMaintYear) (fuel : ℚ),
        (leaseBreakdown E inp cy term payment limit msrp uage numv regional
            sched fuel).length = term.toNat)
    ∧ (∀ (E : Engines) (inp : Input) (chars : VehicleChars) (regional : ℚ)
          (cy : ℤ),
        inp.analysis_years = some 0 →
        _calculate_lease_tco E inp chars regional cy = none) := by
  refine ⟨?_, fun _ _ _ _ _ => rfl, ?_, ?_⟩
  · intro E inp cy h
    simp only [calculate_total_cost_of_ownership, if_neg h]
  · intro E inp cy term payment limit msrp uage numv regional sched fuel
    simp [leaseBreakdown]
  · intro E inp chars regional cy h
    unfold _calculate_lease_tco
    rw [h]
    rw [show ∀ k : ℤ → Option LeaseResult, (Bind.bind (some (0 : ℤ)) k) = k 0 from
      fun k => rfl]
    apply bind_none_of_all; intro monthly_payment
    apply bind_none_of_all; intro annual_mileage_limit
    apply bind_none_of_all; intro trim_msrp
    apply bind_none_of_all; intro user_age
    apply bind_none_of_all; intro num_vehicles
    apply bind_none_of_all; intro gross_income
    apply bind_none_of_all; intro annual_fuel
    rfl

/-- Witness for the amended C3: the invalid-transaction scenario routes to
the purchase path, and the zero-horizon lease scenario produces the error
outcome. -/
theorem C3_no_validation_routing_witness :
    calculate_total_cost_of_ownership zeroEngines invalidInput 2025
        = (_calculate_purchase_tco zeroEngines invalidInput
            (zeroEngines.getVehicleCharacteristics invalidInput.make
              invalidInput.model invalidInput.year)
            (get_regional_cost_multiplier ((invalidInput.zip_code).getD (str ""))
              invalidInput.state) 2025).map TCOResult.purchase
    ∧ _calculate_lease_tco zeroEngines zeroHorizonLease defaultChars 1 2025 = none :=
  ⟨C3_no_validation_routing.1 zeroEngines invalidInput 2025 (by decide),
   C3_no_validation_routing.2.2.2 zeroEngines zeroHorizonLease defaultChars 1 2025 rfl⟩

/-- Counterexample to claim C9 as stated: the orchestration is not a pure
function of its input object alone — it also reads the system clock.  The
lease path stamps its first breakdown row with the clock year
(`lease_start_year = datetime.now().year`), so the same lease input run
under clock year 2025 and under clock year 2026 returns two different
outputs. -/
theorem C9_counterexample_clock_dependence :
    (calculate_total_cost_of_ownership zeroEngines leaseInput 2025).map
        tcoFirstOwnershipYear
      ≠ (calculate_total_cost_of_ownership zeroEngines leaseInput 2026).map
          tcoFirstOwnershipYear := by
  decide

/-- Claim C9 as amended: the orchestration is deterministic given the input
object together with the current clock year — two runs with identical inputs
under the same clock year return identical results; the clock year, read via
`datetime.now().year` and stamped into the lease calendar years, is the
hidden input the stated claim misses. -/
theorem C9_determinism_given_clock (E : Engines) (inp : Input)
    (cy1 cy2 : ℤ) (h : cy1 = cy2) :
    calculate_total_cost_of_ownership E inp cy1
      = calculate_total_cost_of_ownership E inp cy2 := by
  rw [h]

/-- Witness for the amended C9: two same-clock runs of the concrete lease
scenario coincide. -/
theorem C9_determinism_given_clock_witness :
    calculate_total_cost_of_ownership zeroEngines leaseInput 2025
      = calculate_total_cost_of_ownership zeroEngines leaseInput 2025 :=
  C9_determinism_given_clock zeroEngines leaseInput 2025 2025 rfl

/-- Counterexample to claim C10 as stated: a purchase scenario with a
strictly positive gross income (60000) does not complete — the purchase path
fails with a `TypeError` at its maintenance-schedule call before ever
reaching the affordability division. -/
theorem C10_counterexample_purchase_never_completes :
    baseInput.gross_income = some 60000
    ∧ calculate_total_cost_of_ownership zeroEngines baseInput 2025 = none :=
  ⟨rfl, rfl⟩

/-- Claim C10 as amended: `_calculate_affordability` divides the annual cost
by the gross income with no zero guard — at zero gross income it hits the
division by zero (`none`) instead of returning a result, and a lease
calculation with zero gross income fails with it, while for every strictly
positive gross income the affordability step itself completes.  Purchase
calculations, however, never reach the affordability step: they fail earlier
with a `TypeError` at the maintenance-schedule call, for any income. -/
theorem C10_affordability_zero_income :
    (∀ (annual_cost : ℚ) (t : Str), _calculate_affordability annual_cost 0 t = none)
    ∧ (∀ (annual_cost gross_income : ℚ) (t : Str), 0 < gross_income →
        (_calculate_affordability annual_cost gross_income t).isSome = true)
    ∧ (∀ (E : Engines) (inp : Input) (chars : VehicleChars) (regional : ℚ)
          (cy : ℤ),
        inp.gross_income = some 0 →
        _calculate_lease_tco E inp chars regional cy = none)
    ∧ (∀ (E : Engines) (inp : Input) (chars : VehicleChars) (regional : ℚ)
          (cy : ℤ),
        _calculate_purchase_tco E inp chars regional cy = none) := by
  refine ⟨?_, ?_, ?_, fun _ _ _ _ _ => rfl⟩
  · intro annual_cost t
    simp [_calculate_affordability]
  · intro annual_cost gross_income t h
    simp [_calculate_affordability, h.ne']
  · intro E inp chars regional cy h
    unfold _calculate_lease_tco
    apply bind_none_of_all; intro lease_term
    apply bind_none_of_all; intro monthly_payment
    apply bind_none_of_all; intro annual_mileage_limit
    apply bind_none_of_all; intro trim_msrp
    apply bind_none_of_all; intro user_age
    apply bind_none_of_all; intro num_vehicles
    rw [h]
    rw [show ∀ k : ℚ → Option LeaseResult, (Bind.bind (some (0 : ℚ)) k) = k 0 from
      fun k => rfl]
    apply bind_none_of_all; intro annual_fuel
    split
    · rfl
    · rfl

/-- Witness for the amended C10: a positive-income affordability call
completes, and the concrete zero-income lease scenario fails as a whole. -/
theorem C10_affordability_zero_income_witness :
    (_calculate_affordability 5000 50000 (str "purchase")).isSome = true
    ∧ _calculate_lease_tco zeroEngines zeroIncomeLease defaultChars 1 2025 = none :=
  ⟨C10_affordability_zero_income.2.1 5000 50000 (str "purchase") (by decide),
   C10_affordability_zero_income.2.2.1 zeroEngines zeroIncomeLease defaultChars 1 2025 rfl⟩
